import Mathlib

/-!
Verification of the root bootstrap module (src/app/index.tsx) of the
Rocket.Chat React Native fork: the deep-link parser, the startup
arbitration, the layout-mode resolver, the debounced dimension handler
and the theme-subscription lifecycle.

Strings are modelled as lists of characters where that eases reasoning;
`String.mk`/`String.toList` convert at the boundary.
-/

/-- The characters removed by the JavaScript string trim used in the
parser: the ECMAScript TrimString set, i.e. WhiteSpace (TAB, VT, FF, SP,
NBSP, ZWNBSP and every Space_Separator character) together with the
LineTerminator characters (LF, CR, LS, PS). -/
def isJsWhitespace (c : Char) : Bool :=
  c == ' ' || c == '\t' || c == '\n' || c == '\r' || c == '\x0b' || c == '\x0c' ||
  c.val == 0xa0 || c.val == 0x1680 || (0x2000 ≤ c.val && c.val ≤ 0x200a) ||
  c.val == 0x2028 || c.val == 0x2029 || c.val == 0x202f || c.val == 0x205f ||
  c.val == 0x3000 || c.val == 0xfeff

/-- JavaScript `String.prototype.trim` on a character list: drop whitespace
from both ends. -/
def jsTrim (cs : List Char) : List Char :=
  ((cs.dropWhile isJsWhitespace).reverse.dropWhile isJsWhitespace).reverse

/-- Match a literal character sequence at the head of a list, returning the
remainder on success. -/
def stripLit : List Char → List Char → Option (List Char)
  | [], cs => some cs
  | _ :: _, [] => none
  | l :: ls, c :: cs => if l == c then stripLit ls cs else none

/-- The custom URL scheme alternative of the regex
`/rocketchat:\/\/|https:\/\/go.rocket.chat\//` in `parseDeepLinking`. -/
def customScheme : List Char := String.toList ("rocketchat://")

/-- Match the `rocketchat://` alternative at the head of the list. -/
def matchCustomScheme (cs : List Char) : Option (List Char) :=
  stripLit customScheme cs

/-- The ECMAScript LineTerminator characters (LF, CR, LS, PS), which a
regex `.` without the `s` flag does not match. -/
def isJsLineTerminator (c : Char) : Bool :=
  c == '\n' || c == '\r' || c.val == 0x2028 || c.val == 0x2029

/-- Match the `https:\/\/go.rocket.chat\/` alternative at the head of the
list. The two dots in the source regex are unescaped, so each of them
matches one arbitrary character other than a line terminator. -/
def matchGoHost (cs : List Char) : Option (List Char) :=
  match stripLit (String.toList ("https://go")) cs with
  | none => none
  | some r1 =>
    match r1 with
    | [] => none
    | d1 :: r2 =>
      if isJsLineTerminator d1 then none
      else
        match stripLit (String.toList ("rocket")) r2 with
        | none => none
        | some r3 =>
          match r3 with
          | [] => none
          | d2 :: r4 =>
            if isJsLineTerminator d2 then none
            else stripLit (String.toList ("chat/")) r4

/-- Match either alternative of the scheme regex at the head of the list.
The two alternatives start with distinct characters, so at most one can
match at a given position. -/
def matchSchemeAt (cs : List Char) : Option (List Char) :=
  (matchCustomScheme cs).orElse (fun _ => matchGoHost cs)

/-- `url.replace(/rocketchat:\/\/|https:\/\/go.rocket.chat\//, '')`:
JavaScript `String.replace` with an unanchored, non-global regex removes
the first (leftmost) occurrence of either alternative, wherever it is in
the string, and leaves the string unchanged when neither occurs. -/
def replaceSchemes : List Char → List Char
  | [] => []
  | c :: cs =>
    match matchSchemeAt (c :: cs) with
    | some rest => rest
    | none => c :: replaceSchemes cs

/-- `url.match(/^(room|auth|invite|shareextension)\?/)` followed by
`url.replace(regex, '')`: the anchored keyword pattern. On success, return
the matched keyword and everything after the `?` separator. Alternatives
are tried left to right as in the regex (their first characters are
pairwise distinct, so the order is immaterial). -/
def matchIntentKeyword (cs : List Char) : Option (String × List Char) :=
  match stripLit (String.toList ("room?")) cs with
  | some rest => some (("room"), rest)
  | none =>
  match stripLit (String.toList ("auth?")) cs with
  | some rest => some (("auth"), rest)
  | none =>
  match stripLit (String.toList ("invite?")) cs with
  | some rest => some (("invite"), rest)
  | none =>
  match stripLit (String.toList ("shareextension?")) cs with
  | some rest => some (("shareextension"), rest)
  | none => none

/-- Modelled from the spec: one `key=value` pair of the query string, as
produced by the external query-parsing collaborator (the `parseQuery`
helper lives outside src/). The key is everything before the first `=`;
a pair without `=` maps its key to no value (JavaScript `undefined`). -/
def parseQueryPair (p : List Char) : String × Option String :=
  let k := p.takeWhile (fun c => c != '=')
  match p.dropWhile (fun c => c != '=') with
  | [] => (String.mk k, none)
  | _ :: v => (String.mk k, some (String.mk v))

/-- Split a character list on `&` separators. -/
def splitOnAmp : List Char → List (List Char)
  | [] => [[]]
  | c :: cs =>
    if c == '&' then [] :: splitOnAmp cs
    else
      match splitOnAmp cs with
      | [] => [[c]]
      | p :: ps => (c :: p) :: ps

/-- Modelled from the spec: the external query-parsing collaborator (the
`parseQuery` helper, not under src/) parses an ampersand-delimited query
string into a mapping from string keys to (optional) string values. -/
def parseQuery (q : List Char) : List (String × Option String) :=
  (splitOnAmp q).map parseQueryPair

/-- The launch intent produced by `parseDeepLinking` on success: the parsed
query mapping spread into an object together with a `type` field (which
overrides any `type` binding of the mapping itself). -/
structure LaunchIntent where
  params : List (String × Option String)
  type : Option String
deriving DecidableEq, Repr

/-- `parsedQuery?.type`: the value the parsed query mapping binds `type`
to, flattening an explicit undefined value and a missing key into one
undefined result as JavaScript property access does. -/
def queryType (m : List (String × Option String)) : Option String :=
  match m.lookup ("type") with
  | some v => v
  | none => none

/-- The body of `parseDeepLinking` on the character list of the URL.
Mirrors the source: falsy (empty) input fails; strip the first occurrence
of either scheme prefix; match the anchored keyword pattern; trim the
remainder after the separator; an empty trimmed query fails; otherwise
build the intent from the parsed query, forcing `type` to the matched
keyword when it is `shareextension` and passing the query's own `type`
through otherwise. -/
def parseDeepLinkingList : List Char → Option LaunchIntent
  | [] => none
  | c :: cs =>
    let stripped := replaceSchemes (c :: cs)
    match matchIntentKeyword stripped with
    | none => none
    | some (matchedPattern, rest) =>
      let query := jsTrim rest
      if query.isEmpty then none
      else
        let parsedQuery := parseQuery query
        some { params := parsedQuery
               type :=
                 if matchedPattern == ("shareextension") then some matchedPattern
                 else queryType parsedQuery }

/-- `parseDeepLinking` from src/app/index.tsx, on strings. -/
def parseDeepLinking (url : String) : Option LaunchIntent :=
  parseDeepLinkingList url.toList

example : parseDeepLinking ("rocketchat://room?rid=abc") =
    some { params := [(("rid"), some ("abc"))], type := none } := by decide

example : parseDeepLinking ("rocketchat://room?type=direct") =
    some { params := [(("type"), some ("direct"))], type := some ("direct") } := by decide

example : parseDeepLinking ("rocketchat://shareextension?type=direct") =
    some { params := [(("type"), some ("direct"))], type := some ("shareextension") } := by decide

example : parseDeepLinking ("rocketchat://invite?") = none := by decide

example : parseDeepLinking ("https://go.rocket.chat/auth?token=1&x=2") =
    some { params := [(("token"), some ("1")), (("x"), some ("2"))], type := none } := by decide

example : parseDeepLinking ("") = none := by decide

example : parseDeepLinking ("nonsense") = none := by decide

/-- `MIN_WIDTH_MASTER_DETAIL_LAYOUT` from lib/constants (the module is not
under src/; the concrete value is the upstream constant and is not
load-bearing for any claim, which only compare widths against it). -/
def MIN_WIDTH_MASTER_DETAIL_LAYOUT : Int := 700

/-- `getMasterDetail` from src/app/index.tsx. The source closes over the
module-level `isTablet` capability constant (imported from helpers); it is
taken here as an explicit argument. Pure: a function of its inputs only. -/
def getMasterDetail (isTabletCapable : Bool) (width : Int) : Bool :=
  if !isTabletCapable then false
  else decide (width > MIN_WIDTH_MASTER_DETAIL_LAYOUT)

/-- The observable steps of the `init` closure in src/app/index.tsx, in
execution order: the unconditional local-settings dispatch, the hand-off of
a pending push notification, the awaited video-conference initial
notification query (fall-through), the deep-link dispatch, and the default
app-init dispatch. Push-notification payloads are opaque; they are
represented by a natural number tag. -/
inductive InitEffect where
  | dispatchAppInitLocalSettings
  | handleNotification (payload : Nat)
  | queryInitialVideoConfNotification
  | dispatchDeepLinkingOpen (intent : LaunchIntent)
  | dispatchAppInit
deriving DecidableEq, Repr

/-- `parseDeepLinking(deepLinking!)` where `deepLinking` is the result of
`Linking.getInitialURL()` (a string or null): a null URL is falsy inside
`parseDeepLinking`, so it parses to null. -/
def parseInitialURL : Option String → Option LaunchIntent
  | none => none
  | some url => parseDeepLinking url

/-- The `init` closure of src/app/index.tsx as the list of its observable
effects, given the host's answers: the pending push notification (if any)
and the initial URL (if any). Early `return` is modelled by the branch
emitting no further effects. -/
def initEffects (pushNotification : Option Nat) (initialURL : Option String) :
    List InitEffect :=
  InitEffect.dispatchAppInitLocalSettings ::
    (match pushNotification with
     | some n => [InitEffect.handleNotification n]
     | none =>
       InitEffect.queryInitialVideoConfNotification ::
         (match parseInitialURL initialURL with
          | some intent => [InitEffect.dispatchDeepLinkingOpen intent]
          | none => [InitEffect.dispatchAppInit]))

/-- Is the effect one of the three terminal resolution paths of the startup
arbitration (notification hand-off, deep-link dispatch, app-init dispatch)? -/
def isTerminalEffect : InitEffect → Bool
  | InitEffect.handleNotification _ => true
  | InitEffect.dispatchDeepLinkingOpen _ => true
  | InitEffect.dispatchAppInit => true
  | _ => false

/-- Number of terminal resolution effects in a trace. -/
def countTerminal (l : List InitEffect) : Nat :=
  l.countP isTerminalEffect

/-- Number of notification hand-offs in a trace. -/
def countNotificationHandled (l : List InitEffect) : Nat :=
  l.countP (fun e => match e with
    | InitEffect.handleNotification _ => true
    | _ => false)

/-- Number of `deepLinkingOpen` dispatches in a trace. -/
def countDeepLinkingOpen (l : List InitEffect) : Nat :=
  l.countP (fun e => match e with
    | InitEffect.dispatchDeepLinkingOpen _ => true
    | _ => false)

/-- Number of `appInit` dispatches in a trace. -/
def countAppInit (l : List InitEffect) : Nat :=
  l.countP (fun e => match e with
    | InitEffect.dispatchAppInit => true
    | _ => false)

/-- Number of `appInitLocalSettings` dispatches in a trace. -/
def countLocalSettings (l : List InitEffect) : Nat :=
  l.countP (fun e => match e with
    | InitEffect.dispatchAppInitLocalSettings => true
    | _ => false)

/-- The dimensions snapshot delivered by the host (`IDimensions` in the
source). Numeric values are modelled as integers; no claim depends on
fractional values. -/
structure IDimensions where
  width : Int
  height : Int
  scale : Int
  fontScale : Int
deriving DecidableEq, Repr

/-- Modelled from the spec: the `debounce` helper (lib/methods/helpers, not
under src/) is a trailing-edge debounce — each incoming event cancels the
pending timer and reschedules the handler at its own time plus the
quiescence window; the handler fires with the last value once the window
elapses with no further event. The input is the time-sorted list of
(arrival time, value) events; the output is the list of (firing time,
value) handler invocations. -/
def debounceFires (window : Nat) :
    List (Nat × IDimensions) → List (Nat × IDimensions)
  | [] => []
  | [(t, v)] => [(t + window, v)]
  | (t, v) :: (t2, v2) :: rest =>
    if t2 < t + window then debounceFires window ((t2, v2) :: rest)
    else (t + window, v) :: debounceFires window ((t2, v2) :: rest)

/-- One accepted dimensions update: the body of `onDimensionsChange` in
src/app/index.tsx performs a wholesale `setDimensions` replacement and one
master-detail dispatch computed from the new width. -/
structure DimensionsUpdate where
  metrics : IDimensions
  masterDetail : Bool
deriving DecidableEq, Repr

/-- The (undebounced) body of `onDimensionsChange`: replace the stored
metrics wholesale and dispatch `setMasterDetail(getMasterDetail(width))`. -/
def onDimensionsChangeBody (isTabletCapable : Bool) (m : IDimensions) :
    DimensionsUpdate :=
  { metrics := m, masterDetail := getMasterDetail isTabletCapable m.width }

/-- The debounced `onDimensionsChange` handler over a time-sorted event
list: the updates actually applied, each at its firing time. -/
def onDimensionsChangeRun (isTabletCapable : Bool) (window : Nat)
    (events : List (Nat × IDimensions)) : List (Nat × DimensionsUpdate) :=
  (debounceFires window events).map
    (fun p => (p.1, onDimensionsChangeBody isTabletCapable p.2))

/-- Modelled from the spec: the state of the ThemeSubscription component
(`subscribeTheme`/`unsubscribeTheme` live in lib/methods/helpers/theme, not
under src/). `live` is the list of currently live subscription handles
(identified by allocation number); `nextHandle` the next fresh handle. -/
structure ThemeSubscriptionState where
  live : List Nat
  nextHandle : Nat
deriving DecidableEq, Repr

/-- The operations the orchestrator performs on the theme subscription:
`subscribe` (issued on mount and whenever the cached theme-preference
reference changes) and `unsubscribe` (issued on unmount). -/
inductive ThemeOp where
  | subscribe
  | unsubscribe
deriving DecidableEq, Repr

/-- The initial, unsubscribed state. -/
def themeInit : ThemeSubscriptionState := { live := [], nextHandle := 0 }

/-- Modelled from the spec: `subscribe` releases the prior handle (if any)
as part of resubscription and installs one fresh handle; `unsubscribe`
tears the subscription down, returning to the unsubscribed state. -/
def applyThemeOp (s : ThemeSubscriptionState) : ThemeOp → ThemeSubscriptionState
  | ThemeOp.subscribe => { live := [s.nextHandle], nextHandle := s.nextHandle + 1 }
  | ThemeOp.unsubscribe => { live := [], nextHandle := s.nextHandle }

/-- Run a trace of subscription operations from the initial state. -/
def runThemeOps (ops : List ThemeOp) : ThemeSubscriptionState :=
  ops.foldl applyThemeOp themeInit

/-- Deliver one preference-change event: every live subscription's
`onChange` callback is invoked once, so the number of invocations is the
number of live handles. -/
def deliverPreferenceChange (s : ThemeSubscriptionState) : Nat :=
  s.live.length

/-- Characterization of the parser on custom-scheme `room` URLs with an
arbitrary query remainder. -/
theorem parseDeepLinking_custom_room (q : List Char) :
    parseDeepLinking (String.mk (customScheme ++ String.toList ("room?") ++ q)) =
      (if (jsTrim q).isEmpty then none
       else some { params := parseQuery (jsTrim q)
                   type := queryType (parseQuery (jsTrim q)) }) := rfl

/-- Characterization of the parser on custom-scheme `auth` URLs. -/
theorem parseDeepLinking_custom_auth (q : List Char) :
    parseDeepLinking (String.mk (customScheme ++ String.toList ("auth?") ++ q)) =
      (if (jsTrim q).isEmpty then none
       else some { params := parseQuery (jsTrim q)
                   type := queryType (parseQuery (jsTrim q)) }) := rfl

/-- Characterization of the parser on custom-scheme `invite` URLs. -/
theorem parseDeepLinking_custom_invite (q : List Char) :
    parseDeepLinking (String.mk (customScheme ++ String.toList ("invite?") ++ q)) =
      (if (jsTrim q).isEmpty then none
       else some { params := parseQuery (jsTrim q)
                   type := queryType (parseQuery (jsTrim q)) }) := rfl

/-- Characterization of the parser on custom-scheme `shareextension` URLs:
the `type` field is forced to the matched keyword. -/
theorem parseDeepLinking_custom_shareext (q : List Char) :
    parseDeepLinking (String.mk (customScheme ++ String.toList ("shareextension?") ++ q)) =
      (if (jsTrim q).isEmpty then none
       else some { params := parseQuery (jsTrim q)
                   type := some ("shareextension") }) := rfl

/-- Claim C2: for every URL whose matched keyword is `shareextension`, the
resulting intent's kind (the `shareExtension` variant, represented in the
code by the tag string `shareextension`) is forced regardless of any `type`
field carried by the query string; for the keywords `room`, `auth` and
`invite` the intent carries whatever `type` field the parsed query string
produced (passthrough, which may differ from the matched keyword). -/
theorem intent_type_forcing (q : List Char) (h : (jsTrim q).isEmpty = false) :
    parseDeepLinking (String.mk (customScheme ++ String.toList ("shareextension?") ++ q)) =
      some { params := parseQuery (jsTrim q), type := some ("shareextension") } ∧
    parseDeepLinking (String.mk (customScheme ++ String.toList ("room?") ++ q)) =
      some { params := parseQuery (jsTrim q), type := queryType (parseQuery (jsTrim q)) } ∧
    parseDeepLinking (String.mk (customScheme ++ String.toList ("auth?") ++ q)) =
      some { params := parseQuery (jsTrim q), type := queryType (parseQuery (jsTrim q)) } ∧
    parseDeepLinking (String.mk (customScheme ++ String.toList ("invite?") ++ q)) =
      some { params := parseQuery (jsTrim q), type := queryType (parseQuery (jsTrim q)) } := by
  rw [parseDeepLinking_custom_shareext, parseDeepLinking_custom_room,
      parseDeepLinking_custom_auth, parseDeepLinking_custom_invite]
  simp [h]

/-- Witness for C2 at `type=direct`: the share-extension URL forces the tag
while the `room` URL passes the query's `type` (`direct`) through. -/
theorem intent_type_forcing_witness :
    (jsTrim (String.toList ("type=direct"))).isEmpty = false ∧
    parseDeepLinking (String.mk (customScheme ++ String.toList ("shareextension?") ++
        String.toList ("type=direct"))) =
      some { params := [(("type"), some ("direct"))], type := some ("shareextension") } ∧
    parseDeepLinking (String.mk (customScheme ++ String.toList ("room?") ++
        String.toList ("type=direct"))) =
      some { params := [(("type"), some ("direct"))], type := some ("direct") } :=
  ⟨by decide,
   (intent_type_forcing (String.toList ("type=direct")) (by decide)).1,
   (intent_type_forcing (String.toList ("type=direct")) (by decide)).2.1⟩

/-- Claim C5: for every URL in which one of the four keywords matches but
the remainder after the query separator is empty once trimmed of
whitespace, parse returns null. -/
theorem empty_query_fails (q : List Char) (h : (jsTrim q).isEmpty = true) :
    parseDeepLinking (String.mk (customScheme ++ String.toList ("room?") ++ q)) = none ∧
    parseDeepLinking (String.mk (customScheme ++ String.toList ("auth?") ++ q)) = none ∧
    parseDeepLinking (String.mk (customScheme ++ String.toList ("invite?") ++ q)) = none ∧
    parseDeepLinking (String.mk (customScheme ++ String.toList ("shareextension?") ++ q)) = none := by
  rw [parseDeepLinking_custom_room, parseDeepLinking_custom_auth,
      parseDeepLinking_custom_invite, parseDeepLinking_custom_shareext]
  simp [h]

/-- Witness for C5: `rocketchat://invite?` (empty query after the
separator) parses to null. -/
theorem empty_query_fails_witness :
    (jsTrim ([] : List Char)).isEmpty = true ∧
    parseDeepLinking (String.mk (customScheme ++ String.toList ("invite?") ++ ([] : List Char))) =
      none :=
  ⟨by decide, (empty_query_fails ([] : List Char) (by decide)).2.2.1⟩

/-- Claim C10: on a successful parse the returned intent is the parsed query
mapping extended with a `type` field; for `room`, `auth` and `invite` the
matched keyword is discarded — the three keywords yield identical intents,
and when the query carries no `type` key the intent's `type` is undefined. -/
theorem keyword_discarded (q : List Char) (h : (jsTrim q).isEmpty = false) :
    parseDeepLinking (String.mk (customScheme ++ String.toList ("room?") ++ q)) =
      some { params := parseQuery (jsTrim q), type := queryType (parseQuery (jsTrim q)) } ∧
    parseDeepLinking (String.mk (customScheme ++ String.toList ("room?") ++ q)) =
      parseDeepLinking (String.mk (customScheme ++ String.toList ("auth?") ++ q)) ∧
    parseDeepLinking (String.mk (customScheme ++ String.toList ("auth?") ++ q)) =
      parseDeepLinking (String.mk (customScheme ++ String.toList ("invite?") ++ q)) ∧
    (queryType (parseQuery (jsTrim q)) = none →
      parseDeepLinking (String.mk (customScheme ++ String.toList ("room?") ++ q)) =
        some { params := parseQuery (jsTrim q), type := none }) := by
  rw [parseDeepLinking_custom_room, parseDeepLinking_custom_auth, parseDeepLinking_custom_invite]
  refine ⟨by simp [h], rfl, rfl, ?_⟩
  intro ht
  simp [h, ht]

/-- Witness for C10 at query `rid=abc` (no `type` key): the intent's `type`
is undefined and the keyword leaves no trace. -/
theorem keyword_discarded_witness :
    (jsTrim (String.toList ("rid=abc"))).isEmpty = false ∧
    queryType (parseQuery (jsTrim (String.toList ("rid=abc")))) = none ∧
    parseDeepLinking (String.mk (customScheme ++ String.toList ("room?") ++
        String.toList ("rid=abc"))) =
      some { params := [(("rid"), some ("abc"))], type := none } ∧
    parseDeepLinking (String.mk (customScheme ++ String.toList ("room?") ++
        String.toList ("rid=abc"))) =
      parseDeepLinking (String.mk (customScheme ++ String.toList ("auth?") ++
        String.toList ("rid=abc"))) :=
  ⟨by decide, by decide,
   (keyword_discarded (String.toList ("rid=abc")) (by decide)).2.2.2 (by decide),
   (keyword_discarded (String.toList ("rid=abc")) (by decide)).2.1⟩

/-- Claim C4: the deep-link parser is total and fails soft — empty input
yields null, any input without a recognized intent keyword (after the
prefix stripping) yields null, and every input yields either null or a
non-null intent (no exceptional outcome exists). -/
theorem parse_total_fails_soft :
    parseDeepLinking ("") = none ∧
    (∀ s : String, matchIntentKeyword (replaceSchemes s.toList) = none →
      parseDeepLinking s = none) ∧
    (∀ s : String, parseDeepLinking s = none ∨
      ∃ i : LaunchIntent, parseDeepLinking s = some i) := by
  refine ⟨rfl, ?_, ?_⟩
  · intro s h
    unfold parseDeepLinking
    rcases e : s.toList with _ | ⟨c, cs⟩
    · rfl
    · rw [e] at h
      simp [parseDeepLinkingList, h]
  · intro s
    rcases hv : parseDeepLinking s with _ | i
    · exact Or.inl rfl
    · exact Or.inr ⟨i, rfl⟩

/-- Witness for C4: `hello` has no scheme and no keyword, and parses to
null. -/
theorem parse_total_fails_soft_witness :
    matchIntentKeyword (replaceSchemes (String.toList ("hello"))) = none ∧
    parseDeepLinking ("hello") = none :=
  ⟨by decide, parse_total_fails_soft.2.1 ("hello") (by decide)⟩

/-- Claim C1: for every process start, exactly one of the three terminal
resolution paths of the startup arbitration executes, in priority order
with early return — a pending push notification is handed to the
notification handler and suppresses both `deepLinkingOpen` and `appInit`;
otherwise a non-null parsed initial URL is dispatched via `deepLinkingOpen`
and suppresses `appInit`; otherwise `appInit` is dispatched. -/
theorem init_arbitration (push : Option Nat) (url : Option String) :
    countTerminal (initEffects push url) = 1 ∧
    countNotificationHandled (initEffects push url) = (cond push.isSome 1 0) ∧
    countDeepLinkingOpen (initEffects push url) =
      (cond (push.isNone && (parseInitialURL url).isSome) 1 0) ∧
    countAppInit (initEffects push url) =
      (cond (push.isNone && (parseInitialURL url).isNone) 1 0) := by
  rcases push with _ | n
  · rcases hp : parseInitialURL url with _ | i <;>
      simp [initEffects, countTerminal, countNotificationHandled, countDeepLinkingOpen,
        countAppInit, isTerminalEffect, hp, List.countP_cons, List.countP_nil]
  · simp [initEffects, countTerminal, countNotificationHandled, countDeepLinkingOpen,
      countAppInit, isTerminalEffect, List.countP_cons, List.countP_nil]

/-- Claim C9: on every process start `appInitLocalSettings()` is dispatched
first — before any arbitration step — and unconditionally, whichever
resolution path subsequently wins. -/
theorem appInitLocalSettings_first (push : Option Nat) (url : Option String) :
    (initEffects push url).head? = some InitEffect.dispatchAppInitLocalSettings ∧
    countLocalSettings (initEffects push url) = 1 := by
  refine ⟨rfl, ?_⟩
  rcases push with _ | n
  · rcases hp : parseInitialURL url with _ | i <;>
      simp [initEffects, countLocalSettings, hp, List.countP_cons, List.countP_nil]
  · simp [initEffects, countLocalSettings, List.countP_cons, List.countP_nil]

/-- Claim C3: the layout-mode resolver returns false for every width when
the device is not tablet-capable; on tablet-capable devices it returns true
exactly when the width strictly exceeds `MIN_WIDTH_MASTER_DETAIL_LAYOUT`
(false at the threshold, true one above it). As a Lean function of its two
arguments it is pure by construction, mirroring the side-effect-free source
body. -/
theorem getMasterDetail_resolver :
    (∀ w : Int, getMasterDetail false w = false) ∧
    (∀ w : Int, getMasterDetail true w = true ↔ MIN_WIDTH_MASTER_DETAIL_LAYOUT < w) ∧
    getMasterDetail true MIN_WIDTH_MASTER_DETAIL_LAYOUT = false ∧
    getMasterDetail true (MIN_WIDTH_MASTER_DETAIL_LAYOUT + 1) = true := by
  refine ⟨fun w => rfl, fun w => ?_, by decide, by decide⟩
  simp [getMasterDetail]

/-- Every state with at most one live handle keeps at most one live handle
under any sequence of subscription operations. -/
theorem foldl_applyThemeOp_live_le (ops : List ThemeOp) :
    ∀ s : ThemeSubscriptionState, s.live.length ≤ 1 →
      (ops.foldl applyThemeOp s).live.length ≤ 1 := by
  induction ops with
  | nil => intro s hs; exact hs
  | cons op ops ih =>
    intro s hs
    refine ih (applyThemeOp s op) ?_
    cases op <;> simp [applyThemeOp]

/-- Claim C8: the number of live theme subscriptions is 0 or 1 at every
point of the orchestrator's lifetime; a resubscription releases the prior
handle, so after any trace ending in a subscribe a single preference-change
event produces exactly one `onChange` invocation; unmount tears the
subscription down, returning to the unsubscribed state. -/
theorem theme_subscription_lifecycle (ops : List ThemeOp) :
    (runThemeOps ops).live.length ≤ 1 ∧
    deliverPreferenceChange (runThemeOps (ops ++ [ThemeOp.subscribe])) = 1 ∧
    (runThemeOps (ops ++ [ThemeOp.unsubscribe])).live = [] := by
  refine ⟨foldl_applyThemeOp_live_le ops themeInit (by simp [themeInit]), ?_, ?_⟩ <;>
    simp [runThemeOps, List.foldl_append, applyThemeOp, deliverPreferenceChange]

/-- A burst in which every event arrives strictly within the quiescence
window of its predecessor debounces to a single firing carrying the last
event. -/
theorem debounceFires_burst (window : Nat) (events : List (Nat × IDimensions))
    (t : Nat) (m : IDimensions)
    (hlast : events.getLast? = some (t, m))
    (hburst : List.Chain' (fun a b => b.1 < a.1 + window) events) :
    debounceFires window events = [(t + window, m)] := by
  induction events with
  | nil => exact Option.noConfusion hlast
  | cons a rest ih =>
    cases rest with
    | nil =>
      obtain ⟨ta, va⟩ := a
      have h2 : ta = t ∧ va = m := by simpa [Prod.ext_iff] using hlast
      obtain ⟨rfl, rfl⟩ := h2
      rfl
    | cons b rest2 =>
      have hR : b.1 < a.1 + window := (List.chain'_cons.mp hburst).1
      have hchain : List.Chain' (fun x y => y.1 < x.1 + window) (b :: rest2) :=
        (List.chain'_cons.mp hburst).2
      have hlast2 : (b :: rest2).getLast? = some (t, m) := by
        rw [← List.getLast?_cons_cons (l := rest2)]
        exact hlast
      obtain ⟨ta, va⟩ := a
      obtain ⟨tb, vb⟩ := b
      rw [show debounceFires window ((ta, va) :: (tb, vb) :: rest2) =
            (if tb < ta + window then debounceFires window ((tb, vb) :: rest2)
             else (ta + window, va) :: debounceFires window ((tb, vb) :: rest2)) from rfl,
          if_pos hR]
      exact ih hlast2 hchain

/-- Claim C7: a burst of events each arriving within less than the
quiescence window of its predecessor yields exactly one applied update,
whose metrics are the last event of the burst (one wholesale metrics
replacement plus one master-detail dispatch); an isolated event is applied
exactly one quiescence window after it arrives, never delayed
indefinitely. -/
theorem onDimensionsChange_debounced (isTabletCapable : Bool) (window : Nat)
    (events : List (Nat × IDimensions)) (t : Nat) (m : IDimensions)
    (hlast : events.getLast? = some (t, m))
    (hburst : List.Chain' (fun a b => b.1 < a.1 + window) events) :
    onDimensionsChangeRun isTabletCapable window events =
      [(t + window, onDimensionsChangeBody isTabletCapable m)] ∧
    (∀ (t0 : Nat) (m0 : IDimensions),
      onDimensionsChangeRun isTabletCapable window [(t0, m0)] =
        [(t0 + window, onDimensionsChangeBody isTabletCapable m0)]) := by
  refine ⟨?_, fun t0 m0 => rfl⟩
  simp [onDimensionsChangeRun, debounceFires_burst window events t m hlast hburst]

/-- Witness for C7: a two-event burst 50 time units apart under a
100-unit window fires once, at the last event plus the window, with the
last metrics, updating both the stored dimensions and the master-detail
flag. -/
theorem onDimensionsChange_debounced_witness :
    ([((0 : Nat), ({ width := 500, height := 300, scale := 2, fontScale := 1 } : IDimensions)),
      ((50 : Nat), ({ width := 800, height := 600, scale := 2, fontScale := 1 } : IDimensions))].getLast? =
        some (50, ({ width := 800, height := 600, scale := 2, fontScale := 1 } : IDimensions))) ∧
    onDimensionsChangeRun true 100
      [(0, { width := 500, height := 300, scale := 2, fontScale := 1 }),
       (50, { width := 800, height := 600, scale := 2, fontScale := 1 })] =
      [(150, { metrics := { width := 800, height := 600, scale := 2, fontScale := 1 }
               masterDetail := true })] :=
  ⟨by decide,
   (onDimensionsChange_debounced true 100
      [(0, { width := 500, height := 300, scale := 2, fontScale := 1 }),
       (50, { width := 800, height := 600, scale := 2, fontScale := 1 })]
      50 { width := 800, height := 600, scale := 2, fontScale := 1 }
      (by decide)
      (List.chain'_cons.mpr ⟨by norm_num, List.chain'_singleton _⟩)).1⟩
